import Mathlib

/-!
Verification of the glyph cache / atlas / vertex-preparation pipeline of
`src/src/text_render2.rs` (glyphon, `TextRenderer2`).

The Rust source is shallowly embedded below.  Machine integers are modelled
as `Nat` / `Int` with explicit reductions modulo `2 ^ 16` (resp. `2 ^ 32`)
exactly where the source performs an `as u16` cast or a wrapping `u16`
addition.  `f32` quantities that only flow through exact formulas
(`line_y * scale`, rounding) are modelled as `ℚ` with a round-half-away-
from-zero function matching `f32::round`.  Stateful code (the glyph caches,
the atlas packer, the vertex buffer) is modelled by explicit state passing;
fallible code returns `Except`/`Option`.
-/

set_option autoImplicit false

namespace Glyphon

/-- Content type of a rasterized glyph (`ContentType` in the crate root):
`Color` is a full-color bitmap, `Mask` a coverage mask.  The numeric codes
(Color = 0, Mask = 1) follow the declaration order of the enum. -/
inductive ContentType where
  | Color
  | Mask
deriving DecidableEq, Repr

/-- Numeric code of a content type, as produced by the `content_type as u16`
cast in `prepare_glyph`. -/
def ContentType.code : ContentType → Nat
  | ContentType.Color => 0
  | ContentType.Mask => 1

/-- Color mode of the atlas (`ColorMode` in the crate root). -/
inductive ColorMode where
  | Accurate
  | Web
deriving DecidableEq, Repr

/-- `TextColorConversion` from `text_render2.rs` (lines 440-445):
`None = 0`, `ConvertToLinear = 1`. -/
inductive TextColorConversion where
  | None
  | ConvertToLinear
deriving DecidableEq, Repr

/-- The `repr(u16)` value of a `TextColorConversion`. -/
def TextColorConversion.code : TextColorConversion → Nat
  | TextColorConversion.None => 0
  | TextColorConversion.ConvertToLinear => 1

/-- The conversion flag chosen in `prepare_glyph` (lines 656-659): it is a
function of the atlas color mode alone. -/
def srgb_conversion (color_mode : ColorMode) : TextColorConversion :=
  match color_mode with
  | ColorMode.Accurate => TextColorConversion.ConvertToLinear
  | ColorMode.Web => TextColorConversion.None

/-- Subpixel positioning bin (`cosmic_text::SubpixelBin`). -/
inductive SubpixelBin where
  | Zero
  | One
  | Two
  | Three
deriving DecidableEq, Repr

/-- Cache key for an ordinary shaped glyph (`cosmic_text::CacheKey`). -/
structure TextCacheKey where
  font_id : Nat
  glyph_id : Nat
  font_size_bits : Nat
  x_bin : SubpixelBin
  y_bin : SubpixelBin
  flags : Nat
deriving DecidableEq, Repr

/-- Cache key for a custom glyph (`CustomGlyphCacheKey`). -/
structure CustomGlyphCacheKey where
  glyph_id : Nat
  width : Nat
  height : Nat
  x_bin : SubpixelBin
  y_bin : SubpixelBin
deriving DecidableEq, Repr

/-- `GlyphonCacheKey`: identity of a renderable glyph instance. -/
inductive GlyphonCacheKey where
  | Text (key : TextCacheKey)
  | Custom (key : CustomGlyphCacheKey)
deriving DecidableEq, Repr

/-- Residency status of a cache entry (`GpuCacheStatus`).  Atlas
coordinates are `u16`, modelled as `Nat`. -/
inductive GpuCacheStatus where
  | InAtlas (x : Nat) (y : Nat) (content_type : ContentType)
  | SkipRasterization
deriving DecidableEq, Repr

/-- Per-cache-entry metadata (`GlyphDetails`): bitmap width/height (`u16`),
residency status, packer allocation id, and the vertical/horizontal bearing
(`i16`). -/
structure GlyphDetails where
  width : Nat
  height : Nat
  gpu_cache : GpuCacheStatus
  atlas_id : Option Nat
  top : Int
  left : Int
deriving DecidableEq, Repr

/-- One prepared vertex (`GlyphToRender`): `pos` is `[i32; 2]`, `dim` and
`uv` are `[u16; 2]`, `color` a packed `u32`, `content_type_with_srgb` a
`[u16; 2]`, `depth` an `f32` (modelled as `ℚ`). -/
structure GlyphToRender where
  pos : Int × Int
  dim : Nat × Nat
  uv : Nat × Nat
  color : Nat
  content_type_with_srgb : Nat × Nat
  depth : ℚ
deriving DecidableEq, Repr

/-- Errors of the preparation call (`PrepareError`): the single variant is
atlas exhaustion. -/
inductive PrepareError where
  | AtlasFull
deriving DecidableEq, Repr

/-- Clip bounds of a text area (`TextBounds`, fields are `i32`). -/
structure TextBounds where
  left : Int
  top : Int
  right : Int
  bottom : Int
deriving DecidableEq, Repr

/-- Truncation of an `i32` to a `u16`, i.e. its low 16 bits in two's
complement (the `as u16` cast).  The Lean `%` on `Int` is the Euclidean
remainder, hence already non-negative for a positive modulus. -/
def intToU16 (i : Int) : Nat := (i % 65536).toNat

/-- Wrapping `u16` addition (release-mode semantics of `+=` on `u16`). -/
def u16add (a b : Nat) : Nat := (a + b) % 65536

/-- Round half away from zero, the semantics of `f32::round`. -/
def roundHalfAway (q : ℚ) : Int :=
  if q < 0 then -Int.floor (-q + 1/2) else Int.floor (q + 1/2)

/-- Bounds rejection and clipping block of `prepare_glyph`
(`text_render2.rs` lines 604-645).  Input: the glyph footprint origin
`(x, y)` (after bearing adjustment), its unclipped `width`/`height`
(the cached `u16` values), the atlas origin `(atlas_x, atlas_y)` and the
clamped text-area bounds.  Output: `none` when the glyph is rejected,
otherwise the clipped `(x, y, width, height, atlas_x, atlas_y)` with
`width`/`height` still as `i32` values (the cast to `u16` happens at
vertex construction, as in the source). -/
def clip_glyph (x y : Int) (w h : Nat) (atlas_x atlas_y : Nat)
    (bounds_min_x bounds_min_y bounds_max_x bounds_max_y : Int) :
    Option (Int × Int × Int × Int × Nat × Nat) :=
  let width : Int := (w : Int)
  let height : Int := (h : Int)
  -- Starts beyond right edge or ends beyond left edge
  let max_x := x + width
  if x > bounds_max_x ∨ max_x < bounds_min_x then none else
  -- Starts beyond bottom edge or ends beyond top edge
  let max_y := y + height
  if y > bounds_max_y ∨ max_y < bounds_min_y then none else
  -- Clip left edge
  let x1 := if x < bounds_min_x then bounds_min_x else x
  let width1 := if x < bounds_min_x then max_x - bounds_min_x else width
  let atlas_x1 :=
    if x < bounds_min_x then u16add atlas_x (intToU16 (bounds_min_x - x)) else atlas_x
  -- Clip right edge
  let width2 := if x1 + width1 > bounds_max_x then bounds_max_x - x1 else width1
  -- Clip top edge
  let y1 := if y < bounds_min_y then bounds_min_y else y
  let height1 := if y < bounds_min_y then max_y - bounds_min_y else height
  let atlas_y1 :=
    if y < bounds_min_y then u16add atlas_y (intToU16 (bounds_min_y - y)) else atlas_y
  -- Clip bottom edge
  let height2 := if y1 + height1 > bounds_max_y then bounds_max_y - y1 else height1
  some (x1, y1, width2, height2, atlas_x1, atlas_y1)

/-- Vertex-emission tail of `prepare_glyph` (`text_render2.rs` lines
596-662): bearing adjustment of the position, `SkipRasterization`
suppression, bounds rejection/clipping, and construction of the
`GlyphToRender`.  `depth` is the value of `metadata_to_depth(metadata)`. -/
def emit_glyph (x y : Int) (line_y scale_factor : ℚ) (color : Nat) (depth : ℚ)
    (color_mode : ColorMode) (details : GlyphDetails)
    (bounds_min_x bounds_min_y bounds_max_x bounds_max_y : Int) :
    Option GlyphToRender :=
  let x := x + details.left
  let y := roundHalfAway (line_y * scale_factor) + y - details.top
  match details.gpu_cache with
  | GpuCacheStatus.SkipRasterization => none
  | GpuCacheStatus.InAtlas ax ay content_type =>
    match clip_glyph x y details.width details.height ax ay
        bounds_min_x bounds_min_y bounds_max_x bounds_max_y with
    | none => none
    | some (cx, cy, cw, ch, uvx, uvy) =>
      some {
        pos := (cx, cy)
        dim := (intToU16 cw, intToU16 ch)
        uv := (uvx, uvy)
        color := color
        content_type_with_srgb :=
          (content_type.code, (srgb_conversion color_mode).code)
        depth := depth }

/-- The glyph cache of one atlas, modelled as an association list with the
lookup/insert semantics of the `HashMap` used by the source
(`glyph_cache.get`, `glyph_cache.entry(..).or_insert(..)`). -/
abbrev GlyphCache : Type := List (GlyphonCacheKey × GlyphDetails)

/-- `HashMap::get`: the value stored for `key`, if any. -/
def cacheGet (cache : GlyphCache) (key : GlyphonCacheKey) : Option GlyphDetails :=
  match cache with
  | [] => none
  | (k, d) :: rest => if k = key then some d else cacheGet rest key

/-- `HashMap::entry(key).or_insert(d)`: returns the stored value when the
key is present, otherwise inserts `d`; the returned pair is the value the
caller sees and the updated cache. -/
def cacheEntryOrInsert (cache : GlyphCache) (key : GlyphonCacheKey)
    (d : GlyphDetails) : GlyphDetails × GlyphCache :=
  match cacheGet cache key with
  | some d0 => (d0, cache)
  | none => (d, (key, d) :: cache)

/-- Modelled from the spec: the 2D rectangle packer of one atlas
(`try_allocate` / `grow` live in `text_atlas.rs`, which is not part of the
given sources; §4.1 specifies them as `try_allocate(width, height) ->
Option<Rectangle>` and `grow -> bool`, growth being deterministic and
monotonic with a hard maximum).  This model is a one-shelf packer: the
atlas is a `side × side` square with a hard ceiling `max_side`; rectangles
are handed out left to right along the top shelf and tagged with a fresh
allocation id; growth doubles the side up to the ceiling and reports
failure (`none`) exactly when the ceiling is already reached. -/
structure PackerState where
  side : Nat
  max_side : Nat
  cursor : Nat
  next_id : Nat
deriving DecidableEq, Repr

/-- Modelled from the spec: `try_allocate(width, height)` hands out a free
region (its min corner and allocation id) or fails when the packer is
exhausted. -/
def try_allocate (w h : Nat) (p : PackerState) :
    Option ((Nat × Nat) × Nat × PackerState) :=
  if p.cursor + w ≤ p.side ∧ h ≤ p.side then
    some ((p.cursor, 0), p.next_id,
      { p with cursor := p.cursor + w, next_id := p.next_id + 1 })
  else
    none

/-- Modelled from the spec: `grow` enlarges the atlas (doubling, clamped to
the ceiling) and returns the new state, or `none` when the hard maximum is
already reached — the `false` return of `TextAtlas::grow`. -/
def grow_packer (p : PackerState) : Option PackerState :=
  if p.side < p.max_side then
    some { p with side := min p.max_side (max (2 * p.side) 1) }
  else
    none

/-- The allocation loop of `prepare_glyph` (`text_render2.rs` lines
526-545): try to allocate; on failure grow and retry; when growth reports
it cannot increase capacity, fail with `PrepareError::AtlasFull`. -/
def allocate_loop (w h : Nat) (p : PackerState) :
    Except PrepareError ((Nat × Nat) × Nat × PackerState) :=
  match try_allocate w h p with
  | some a => Except.ok a
  | none =>
    match _hg : grow_packer p with
    | some p1 => allocate_loop w h p1
    | none => Except.error PrepareError.AtlasFull
termination_by p.max_side - p.side
decreasing_by
  simp only [grow_packer] at _hg
  split at _hg
  · cases _hg
    simp only
    omega
  · cases _hg

/-- One of the two per-content-type atlases (`InnerAtlas`): its glyph
cache and its packer state. -/
structure InnerAtlas where
  glyph_cache : GlyphCache
  packer : PackerState
deriving DecidableEq, Repr

/-- The shared text atlas (`TextAtlas`): mask and color sub-atlases plus
the global color mode. -/
structure TextAtlas where
  mask_atlas : InnerAtlas
  color_atlas : InnerAtlas
  color_mode : ColorMode
deriving DecidableEq, Repr

/-- Modelled from the spec: `TextAtlas::inner_for_content_mut` selects the
sub-atlas matching a content type (mask glyphs live in the mask atlas,
color glyphs in the color atlas). -/
def innerFor (atlas : TextAtlas) (content_type : ContentType) : InnerAtlas :=
  match content_type with
  | ContentType.Mask => atlas.mask_atlas
  | ContentType.Color => atlas.color_atlas

/-- Modelled from the spec: writing back the sub-atlas selected by
`innerFor`. -/
def setInner (atlas : TextAtlas) (content_type : ContentType)
    (inner : InnerAtlas) : TextAtlas :=
  match content_type with
  | ContentType.Mask => { atlas with mask_atlas := inner }
  | ContentType.Color => { atlas with color_atlas := inner }

/-- Result of the rasterization callback (`GetGlyphImageResult`):
content type, bearings (`i16`), bitmap extent (`u16`) and bytes. -/
structure GetGlyphImageResult where
  content_type : ContentType
  top : Int
  left : Int
  width : Nat
  height : Nat
  data : List Nat
deriving DecidableEq, Repr

/-- Outcome of one `prepare_glyph` call: the optional emitted vertex, the
atlas state after the call, whether the rasterization callback
(`get_glyph_image`) was invoked, and whether a bitmap was uploaded to the
atlas texture (`queue.write_texture`). -/
structure PrepareOutcome where
  vertex : Option GlyphToRender
  atlas : TextAtlas
  rasterized : Bool
  uploaded : Bool
deriving DecidableEq, Repr

/-- `prepare_glyph` (`text_render2.rs` lines 483-663).  The rasterization
callback is modelled by the value `glyph_image` it would return (the source
invokes it exactly once, on a double cache miss); `metadata_to_depth` is
the caller-supplied depth mapping.  Cache resolution checks the mask store
then the color store; on a miss, a `None` image returns `Ok(None)`, a
zero-sized image is cached as `SkipRasterization` in the color atlas, and
a non-empty image is allocated (with growth retry), uploaded, and cached
in the atlas matching its content type. -/
def prepare_glyph (x y : Int) (line_y : ℚ) (color : Nat) (metadata : Nat)
    (cache_key : GlyphonCacheKey) (atlas : TextAtlas) (scale_factor : ℚ)
    (bounds_min_x bounds_min_y bounds_max_x bounds_max_y : Int)
    (glyph_image : Option GetGlyphImageResult)
    (metadata_to_depth : Nat → ℚ) :
    Except PrepareError PrepareOutcome :=
  let depth := metadata_to_depth metadata
  match cacheGet atlas.mask_atlas.glyph_cache cache_key with
  | some details =>
    Except.ok ⟨emit_glyph x y line_y scale_factor color depth atlas.color_mode
      details bounds_min_x bounds_min_y bounds_max_x bounds_max_y,
      atlas, false, false⟩
  | none =>
  match cacheGet atlas.color_atlas.glyph_cache cache_key with
  | some details =>
    Except.ok ⟨emit_glyph x y line_y scale_factor color depth atlas.color_mode
      details bounds_min_x bounds_min_y bounds_max_x bounds_max_y,
      atlas, false, false⟩
  | none =>
  match glyph_image with
  | none => Except.ok ⟨none, atlas, true, false⟩
  | some image =>
    if 0 < image.width ∧ 0 < image.height then
      -- should_rasterize: allocate (growing on failure), upload, cache.
      let inner := innerFor atlas image.content_type
      match allocate_loop image.width image.height inner.packer with
      | Except.error e => Except.error e
      | Except.ok ((ax, ay), alloc_id, packer1) =>
        let gpu_cache := GpuCacheStatus.InAtlas (ax % 65536) (ay % 65536)
          image.content_type
        let (details, cache1) := cacheEntryOrInsert inner.glyph_cache cache_key
          { width := image.width, height := image.height,
            gpu_cache := gpu_cache, atlas_id := some alloc_id,
            top := image.top, left := image.left }
        let atlas1 := setInner atlas image.content_type
          { glyph_cache := cache1, packer := packer1 }
        Except.ok ⟨emit_glyph x y line_y scale_factor color depth
          atlas1.color_mode details
          bounds_min_x bounds_min_y bounds_max_x bounds_max_y,
          atlas1, true, true⟩
    else
      -- Zero-sized bitmap: cache as SkipRasterization in the color atlas.
      let inner := atlas.color_atlas
      let (details, cache1) := cacheEntryOrInsert inner.glyph_cache cache_key
        { width := image.width, height := image.height,
          gpu_cache := GpuCacheStatus.SkipRasterization, atlas_id := none,
          top := image.top, left := image.left }
      let atlas1 := { atlas with color_atlas := { inner with glyph_cache := cache1 } }
      Except.ok ⟨emit_glyph x y line_y scale_factor color depth
        atlas1.color_mode details
        bounds_min_x bounds_min_y bounds_max_x bounds_max_y,
        atlas1, true, false⟩

/-- Truncation toward zero of a rational, the rounding used by Rust's
`f32 as i32` cast (saturation is irrelevant at the magnitudes involved and
is applied by `ratToI32`). -/
def ratTrunc (q : ℚ) : Int :=
  if q < 0 then -Rat.floor (-q) else Rat.floor q

/-- The `as i32` cast on an `f32`: truncation toward zero, saturating at
the `i32` range. -/
def ratToI32 (q : ℚ) : Int :=
  max (-(2 ^ 31)) (min (2 ^ 31 - 1) (ratTrunc q))

/-- One glyph instance as it reaches `prepare_glyph`: the shaped physical
position, resolved color (`glyph.color_opt.unwrap_or(default)`), metadata,
cache key, and the bitmap the rasterization callback would produce for it
on a cache miss.  Shaping and rasterization are external collaborators of
the core, so their outputs are inputs of the embedding. -/
structure GlyphInput where
  x : Int
  y : Int
  color : Nat
  metadata : Nat
  cache_key : GlyphonCacheKey
  image : Option GetGlyphImageResult

/-- One layout run of a text area: baseline and line metrics plus its
shaped glyphs. -/
structure RunInput where
  line_y : ℚ
  line_top : ℚ
  line_w : ℚ
  line_height : ℚ
  glyphs : List GlyphInput

/-- One input text area: origin, scale, clip bounds, custom glyphs and
layout runs. -/
structure TextAreaInput where
  left : ℚ
  top : ℚ
  scale : ℚ
  bounds : TextBounds
  custom_glyphs : List GlyphInput
  runs : List RunInput

/-- One per-line glyph batch of a renderable text area (`LayoutGlyphs`). -/
structure LayoutGlyphs where
  bounds : TextBounds
  glyphs : List GlyphToRender
deriving DecidableEq, Repr

/-- Output of one preparation call for one text area
(`RenderableTextArea`). -/
structure RenderableTextArea where
  layout_glyphs : List LayoutGlyphs
  custom_glyphs : List GlyphToRender
deriving DecidableEq, Repr

/-- The per-glyph loop shared by the custom-glyph pass (lines 244-325) and
the per-run pass (lines 333-388): prepare each glyph in order against the
evolving atlas, pushing the emitted vertices; a `?`-propagated error aborts
the whole computation. -/
def prepare_glyph_list (atlas : TextAtlas) (scale : ℚ) (line_y : ℚ)
    (bounds_min_x bounds_min_y bounds_max_x bounds_max_y : Int)
    (metadata_to_depth : Nat → ℚ) (glyphs : List GlyphInput) :
    Except PrepareError (List GlyphToRender × TextAtlas) :=
  match glyphs with
  | [] => Except.ok ([], atlas)
  | g :: rest =>
    match prepare_glyph g.x g.y line_y g.color g.metadata g.cache_key atlas
        scale bounds_min_x bounds_min_y bounds_max_x bounds_max_y
        g.image metadata_to_depth with
    | Except.error e => Except.error e
    | Except.ok outcome =>
      match prepare_glyph_list outcome.atlas scale line_y
          bounds_min_x bounds_min_y bounds_max_x bounds_max_y
          metadata_to_depth rest with
      | Except.error e => Except.error e
      | Except.ok (vs, atlas1) =>
        Except.ok
          (match outcome.vertex with
           | some v => v :: vs
           | none => vs, atlas1)

/-- The per-run loop of `prepare_text_areas_with_depth_and_custom`
(lines 331-399): each run's glyphs become one `LayoutGlyphs` batch whose
bounds are derived from the area origin and the run's line metrics. -/
def prepare_runs (atlas : TextAtlas) (area : TextAreaInput)
    (bounds_min_x bounds_min_y bounds_max_x bounds_max_y : Int)
    (metadata_to_depth : Nat → ℚ) (runs : List RunInput) :
    Except PrepareError (List LayoutGlyphs × TextAtlas) :=
  match runs with
  | [] => Except.ok ([], atlas)
  | run :: rest =>
    match prepare_glyph_list atlas area.scale run.line_y
        bounds_min_x bounds_min_y bounds_max_x bounds_max_y
        metadata_to_depth run.glyphs with
    | Except.error e => Except.error e
    | Except.ok (glyph_vertices, atlas1) =>
      match prepare_runs atlas1 area
          bounds_min_x bounds_min_y bounds_max_x bounds_max_y
          metadata_to_depth rest with
      | Except.error e => Except.error e
      | Except.ok (batches, atlas2) =>
        Except.ok
          ({ bounds :=
              { top := ratToI32 (area.top + run.line_top)
                left := ratToI32 area.left
                right := ratToI32 (area.left + run.line_w)
                bottom := ratToI32 (area.top + run.line_top + run.line_height) }
             glyphs := glyph_vertices } :: batches, atlas2)

/-- `prepare_text_areas_with_depth_and_custom` (`text_render2.rs` lines
214-408) over pre-shaped inputs: per text area, clamp the clip bounds to
the viewport, prepare the custom glyphs (at `line_y = 0`), then the layout
runs, and collect one `RenderableTextArea` per input area.  Any per-glyph
error aborts the whole call via `?`. -/
def prepare_text_areas_with_depth_and_custom (atlas : TextAtlas)
    (viewport_w viewport_h : Nat) (metadata_to_depth : Nat → ℚ)
    (areas : List TextAreaInput) :
    Except PrepareError (List RenderableTextArea × TextAtlas) :=
  match areas with
  | [] => Except.ok ([], atlas)
  | area :: rest =>
    let bounds_min_x := max area.bounds.left 0
    let bounds_min_y := max area.bounds.top 0
    let bounds_max_x := min area.bounds.right (viewport_w : Int)
    let bounds_max_y := min area.bounds.bottom (viewport_h : Int)
    match prepare_glyph_list atlas area.scale 0
        bounds_min_x bounds_min_y bounds_max_x bounds_max_y
        metadata_to_depth area.custom_glyphs with
    | Except.error e => Except.error e
    | Except.ok (custom_glyph_vertices, atlas1) =>
      match prepare_runs atlas1 area
          bounds_min_x bounds_min_y bounds_max_x bounds_max_y
          metadata_to_depth area.runs with
      | Except.error e => Except.error e
      | Except.ok (layout_glyphs, atlas2) =>
        match prepare_text_areas_with_depth_and_custom atlas2
            viewport_w viewport_h metadata_to_depth rest with
        | Except.error e => Except.error e
        | Except.ok (rest_areas, atlas3) =>
          Except.ok
            ({ layout_glyphs := layout_glyphs
               custom_glyphs := custom_glyph_vertices } :: rest_areas, atlas3)

/-- The vertex-stream flattening of `prepare_renderable_text_areas`
(`text_render2.rs` lines 155-169), exactly as written in the source: for
each renderable text area, `flat_map` over its `layout_glyphs`, and inside
that inner `flat_map` each batch's glyphs are chained with the *area's*
custom glyphs. -/
def assemble_glyph_vertices (areas : List RenderableTextArea) :
    List GlyphToRender :=
  areas.flatMap (fun renderable_text_area =>
    renderable_text_area.layout_glyphs.flatMap (fun layout_glyphs =>
      layout_glyphs.glyphs ++ renderable_text_area.custom_glyphs))

/-- `wgpu::COPY_BUFFER_ALIGNMENT` (4 bytes). -/
def COPY_BUFFER_ALIGNMENT : Nat := 4

/-- Rust's `u64::next_power_of_two`: the smallest power of two that is
greater than or equal to the input (1 for input 0). -/
def next_power_of_two (n : Nat) : Nat :=
  if n ≤ 1 then 1 else 2 ^ (Nat.log 2 (n - 1) + 1)

/-- `next_copy_buffer_size` (`text_render2.rs` lines 447-450).  Since the
alignment is a power of two, `(x + align_mask) & !align_mask` is the
round-down of `x + align_mask` to a multiple of the alignment, written
here with division. -/
def next_copy_buffer_size (size : Nat) : Nat :=
  let align_mask := COPY_BUFFER_ALIGNMENT - 1
  max (((next_power_of_two size + align_mask) / COPY_BUFFER_ALIGNMENT)
        * COPY_BUFFER_ALIGNMENT)
      COPY_BUFFER_ALIGNMENT

/-- `std::mem::size_of::<GlyphToRender>()`: `pos` 8 bytes, `dim` 4, `uv` 4,
`color` 4, `content_type_with_srgb` 4, `depth` 4 — 28 bytes, no padding. -/
def GLYPH_TO_RENDER_SIZE : Nat := 28

/-- The buffer-management state of `TextRenderer2`: current GPU buffer
capacity in bytes, the number of vertices last written, and a generation
counter that increments exactly when the buffer is destroyed and
recreated (so an unchanged generation means the write was in place). -/
structure TextRenderer2 where
  vertex_buffer_size : Nat
  glyph_vertices_len : Nat
  generation : Nat
deriving DecidableEq, Repr

/-- `TextRenderer2::new` (lines 92-116): the initial buffer capacity is
`next_copy_buffer_size(4096)` and no vertices are stored. -/
def TextRenderer2.init : TextRenderer2 :=
  { vertex_buffer_size := next_copy_buffer_size 4096, glyph_vertices_len := 0,
    generation := 0 }

/-- Buffer effect of `prepare_renderable_text_areas` (lines 147-197):
flatten the vertex stream; when its byte length fits in the current
capacity, write in place (capacity unchanged), otherwise destroy the
buffer and recreate it with capacity `next_copy_buffer_size` of the byte
length (`create_oversized_buffer`, lines 452-468). -/
def TextRenderer2.prepare_renderable_text_areas (r : TextRenderer2)
    (areas : List RenderableTextArea) : TextRenderer2 :=
  let glyph_vertices := assemble_glyph_vertices areas
  let raw_len := glyph_vertices.length * GLYPH_TO_RENDER_SIZE
  if raw_len ≤ r.vertex_buffer_size then
    { r with glyph_vertices_len := glyph_vertices.length }
  else
    { vertex_buffer_size := next_copy_buffer_size raw_len
      glyph_vertices_len := glyph_vertices.length
      generation := r.generation + 1 }

/-- A sequence of `prepare_renderable_text_areas` calls. -/
def TextRenderer2.run_prepares (r : TextRenderer2)
    (calls : List (List RenderableTextArea)) : TextRenderer2 :=
  calls.foldl TextRenderer2.prepare_renderable_text_areas r

/-- A concrete vertex used in closed evaluations. -/
def sampleVertex : GlyphToRender :=
  { pos := (3, 4), dim := (1, 1), uv := (0, 0), color := 0,
    content_type_with_srgb := (1, 0), depth := 0 }

/-- Concrete text bounds used in closed evaluations. -/
def sampleBounds : TextBounds :=
  { left := 0, top := 0, right := 100, bottom := 100 }

/-- A concrete resident cache entry: a 10 by 10 mask bitmap at atlas
position (5, 7) with zero bearings. -/
def sampleDetails : GlyphDetails :=
  { width := 10, height := 10,
    gpu_cache := GpuCacheStatus.InAtlas 5 7 ContentType.Mask,
    atlas_id := some 0, top := 0, left := 0 }

/-- A concrete packer with free space (side 256, ceiling 1024). -/
def samplePacker : PackerState :=
  { side := 256, max_side := 1024, cursor := 0, next_id := 0 }

/-- A concrete packer that is exhausted and already at its growth
ceiling: allocation fails and growth cannot proceed. -/
def fullPacker : PackerState :=
  { side := 8, max_side := 8, cursor := 8, next_id := 0 }

/-- A concrete atlas with empty caches and room to allocate. -/
def emptyAtlas : TextAtlas :=
  { mask_atlas := { glyph_cache := [], packer := samplePacker }
    color_atlas := { glyph_cache := [], packer := samplePacker }
    color_mode := ColorMode.Web }

/-- A concrete atlas with empty caches whose packers are exhausted at
their ceiling. -/
def fullAtlas : TextAtlas :=
  { mask_atlas := { glyph_cache := [], packer := fullPacker }
    color_atlas := { glyph_cache := [], packer := fullPacker }
    color_mode := ColorMode.Web }

/-- A concrete cache key. -/
def sampleKey : GlyphonCacheKey :=
  GlyphonCacheKey.Text
    { font_id := 0, glyph_id := 7, font_size_bits := 0,
      x_bin := SubpixelBin.Zero, y_bin := SubpixelBin.Zero, flags := 0 }

/-- A concrete 4 by 4 mask bitmap with zero bearings. -/
def sampleImage : GetGlyphImageResult :=
  { content_type := ContentType.Mask, top := 0, left := 0,
    width := 4, height := 4, data := [] }

/-- The cache entry created by preparing `sampleImage` on `emptyAtlas`:
allocated at the packer origin with allocation id 0. -/
def uploadedDetails : GlyphDetails :=
  { width := 4, height := 4,
    gpu_cache := GpuCacheStatus.InAtlas 0 0 ContentType.Mask,
    atlas_id := some 0, top := 0, left := 0 }

/-- `emptyAtlas` after preparing `sampleKey` with `sampleImage`: the mask
store holds the new entry and the mask packer advanced by 4 columns. -/
def uploadedAtlas : TextAtlas :=
  { mask_atlas :=
      { glyph_cache := [(sampleKey, uploadedDetails)]
        packer := { side := 256, max_side := 1024, cursor := 4, next_id := 1 } }
    color_atlas := { glyph_cache := [], packer := samplePacker }
    color_mode := ColorMode.Web }

/-- The vertex emitted for `sampleKey` at the origin with color 2. -/
def uploadedVertex : GlyphToRender :=
  { pos := (0, 0), dim := (4, 4), uv := (0, 0), color := 2,
    content_type_with_srgb := (1, 0), depth := 0 }

/-! ### Helper lemmas about the clipping block -/

/-- When the glyph footprint and the bounds have a non-empty geometric
intersection and the `u16` arithmetic cannot wrap, `clip_glyph` returns
exactly that intersection, with the atlas origin shifted by the min-side
clip amounts. -/
theorem clip_glyph_intersection (x y : Int) (w h ax ay : Nat)
    (bx0 by0 bx1 by1 : Int)
    (hw : w < 65536) (hh : h < 65536)
    (hax : ax + w < 65536) (hay : ay + h < 65536)
    (hox : max x bx0 < min (x + w) bx1)
    (hoy : max y by0 < min (y + h) by1) :
    clip_glyph x y w h ax ay bx0 by0 bx1 by1 =
      some (max x bx0, max y by0,
            min (x + (w : Int)) bx1 - max x bx0,
            min (y + (h : Int)) by1 - max y by0,
            (if x < bx0 then ax + (bx0 - x).toNat else ax),
            (if y < by0 then ay + (by0 - y).toNat else ay)) := by
  simp only [clip_glyph, u16add, intToU16]
  simp only [max_lt_iff, lt_min_iff] at hox hoy
  split_ifs with h1 h2 h3 h4 h5 h6
  any_goals (exfalso; omega)
  all_goals simp only [Option.some.injEq, Prod.mk.injEq]
  all_goals (repeat' apply And.intro)
  all_goals (first | trivial | omega)

/-- `clip_glyph` rejects (returns `none`) exactly when the footprint is
strictly beyond a bound: it starts strictly beyond the max edge or ends
strictly before the min edge of either axis. -/
theorem clip_glyph_none_iff (x y : Int) (w h ax ay : Nat)
    (bx0 by0 bx1 by1 : Int) :
    clip_glyph x y w h ax ay bx0 by0 bx1 by1 = none ↔
      (x > bx1 ∨ x + (w : Int) < bx0 ∨ y > by1 ∨ y + (h : Int) < by0) := by
  simp only [clip_glyph]
  split_ifs with h1 h2 <;> simp <;> omega

/-- Shape of a successful `clip_glyph` result: the output origin is the
requested origin clamped from below at the min bounds, and (when the
clamped bounds are ordered) the output extents are non-negative and no
larger than the input extents. -/
theorem clip_glyph_some_shape (x y : Int) (w h ax ay : Nat)
    (bx0 by0 bx1 by1 : Int) (cx cy cw ch : Int) (uvx uvy : Nat)
    (hres : clip_glyph x y w h ax ay bx0 by0 bx1 by1 =
      some (cx, cy, cw, ch, uvx, uvy)) :
    cx = max x bx0 ∧ cy = max y by0 ∧
      (bx0 ≤ bx1 → 0 ≤ cw ∧ cw ≤ w) ∧ (by0 ≤ by1 → 0 ≤ ch ∧ ch ≤ h) := by
  simp only [clip_glyph] at hres
  split_ifs at hres with h1 h2 h3 h4 h5 h6 <;>
    (simp only [Option.some.injEq, Prod.mk.injEq] at hres
     obtain ⟨e1, e2, e3, e4, e5, e6⟩ := hres
     refine ⟨by omega, by omega, fun hbx => ⟨by omega, by omega⟩,
       fun hby => ⟨by omega, by omega⟩⟩)

/-- The rounding of `0` is `0` (used to evaluate `line_y * scale` in the
concrete instances below). -/
theorem roundHalfAway_zero : roundHalfAway 0 = 0 := by
  norm_num [roundHalfAway]

/-! ### C1: flattening of renderable text areas -/

/-- C1: the claim states that `prepare_renderable_text_areas` lists, per
text area, all line-batch glyph vertices followed *exactly once* by the
area's custom-glyph vertices, regardless of the number of line batches.
The code chains the custom glyphs inside the per-batch `flat_map`, so an
area with no line batches loses its custom glyphs entirely, and an area
with two line batches emits them twice. -/
theorem c1_custom_glyphs_once_per_batch :
    assemble_glyph_vertices
        [{ layout_glyphs := [], custom_glyphs := [sampleVertex] }] = [] ∧
    assemble_glyph_vertices
        [{ layout_glyphs := [{ bounds := sampleBounds, glyphs := [] },
                             { bounds := sampleBounds, glyphs := [] }],
           custom_glyphs := [sampleVertex] }] =
      [sampleVertex, sampleVertex] := by
  constructor <;> rfl

/-! ### C2: clipping yields the exact geometric intersection -/

/-- C2: for a cached glyph whose footprint partially overlaps the clamped
bounds (non-empty intersection), the emitted vertex's position and
dimensions are the exact geometric intersection of footprint and bounds,
and the atlas uv origin is advanced by exactly the min-side clip amount on
each axis (unchanged for max-side clips). -/
theorem c2_clip_exact_intersection (x y : Int) (line_y scale_factor : ℚ)
    (color : Nat) (depth : ℚ) (cm : ColorMode) (details : GlyphDetails)
    (ax ay : Nat) (ct : ContentType) (bx0 by0 bx1 by1 : Int)
    (hcache : details.gpu_cache = GpuCacheStatus.InAtlas ax ay ct)
    (hw : details.width < 65536) (hh : details.height < 65536)
    (hax : ax + details.width < 65536) (hay : ay + details.height < 65536)
    (hox : max (x + details.left) bx0 <
      min (x + details.left + (details.width : Int)) bx1)
    (hoy : max (roundHalfAway (line_y * scale_factor) + y - details.top) by0 <
      min (roundHalfAway (line_y * scale_factor) + y - details.top +
        (details.height : Int)) by1) :
    emit_glyph x y line_y scale_factor color depth cm details bx0 by0 bx1 by1 =
      some { pos := (max (x + details.left) bx0,
                     max (roundHalfAway (line_y * scale_factor) + y -
                       details.top) by0),
             dim := ((min (x + details.left + (details.width : Int)) bx1 -
                       max (x + details.left) bx0).toNat,
                     (min (roundHalfAway (line_y * scale_factor) + y -
                         details.top + (details.height : Int)) by1 -
                       max (roundHalfAway (line_y * scale_factor) + y -
                         details.top) by0).toNat),
             uv := ((if x + details.left < bx0 then
                       ax + (bx0 - (x + details.left)).toNat else ax),
                    (if roundHalfAway (line_y * scale_factor) + y -
                         details.top < by0 then
                       ay + (by0 - (roundHalfAway (line_y * scale_factor) +
                         y - details.top)).toNat else ay)),
             color := color,
             content_type_with_srgb := (ct.code, (srgb_conversion cm).code),
             depth := depth } := by
  have hclip := clip_glyph_intersection (x + details.left)
    (roundHalfAway (line_y * scale_factor) + y - details.top)
    details.width details.height ax ay bx0 by0 bx1 by1 hw hh hax hay hox hoy
  simp only [emit_glyph, hcache, hclip]
  simp only [Option.some.injEq, GlyphToRender.mk.injEq, Prod.mk.injEq,
    intToU16, u16add]
  repeat' apply And.intro
  all_goals (first | trivial | omega)

/-- Witness for C2: a 10 by 10 glyph at x = −3 against bounds [0, 8) is
clipped on the left (uv.x advances from 5 to 8) and on the right, and on
no vertical edge. -/
theorem c2_clip_exact_intersection_witness :
    emit_glyph (-3) 2 0 1 9 0 ColorMode.Web sampleDetails 0 0 8 8 =
      some { pos := (0, 2), dim := (7, 6), uv := (8, 7), color := 9,
             content_type_with_srgb := (1, 0), depth := 0 } := by
  have h := c2_clip_exact_intersection (-3) 2 0 1 9 0 ColorMode.Web
    sampleDetails 5 7 ContentType.Mask 0 0 8 8 rfl
    (by norm_num [sampleDetails]) (by norm_num [sampleDetails])
    (by norm_num [sampleDetails]) (by norm_num [sampleDetails])
    (by norm_num [sampleDetails])
    (by norm_num [sampleDetails, roundHalfAway])
  rw [h]
  norm_num [sampleDetails, roundHalfAway, ContentType.code,
    TextColorConversion.code, srgb_conversion]
  all_goals decide

/-! ### C9: rejection of out-of-bounds footprints -/

/-- C9 counterexample: a footprint starting exactly at the exclusive
right bound (x = 100 with bounds [0, 100)) is wholly outside the bounds,
yet `prepare_glyph`'s clipping does not return `None`: it emits a vertex
of width 0.  The claim, as stated, is false at this input. -/
theorem c9_counterexample :
    emit_glyph 100 20 0 1 0 0 ColorMode.Web sampleDetails 0 0 100 100 =
      some { pos := (100, 20), dim := (0, 10), uv := (5, 7), color := 0,
             content_type_with_srgb := (1, 0), depth := 0 } := by
  norm_num [emit_glyph, clip_glyph, sampleDetails, roundHalfAway, intToU16,
    u16add, ContentType.code, TextColorConversion.code, srgb_conversion]
  all_goals decide

/-- C9 amended: for a resident glyph, `None` is returned exactly when the
footprint is *strictly* outside the bounds on some axis — it starts
strictly beyond the max edge or ends strictly before the min edge;
footprints that merely touch the exclusive max bound or end exactly at
the inclusive min bound are kept (and clipped to zero extent). -/
theorem c9_amended_reject_iff (x y : Int) (line_y scale_factor : ℚ)
    (color : Nat) (depth : ℚ) (cm : ColorMode) (details : GlyphDetails)
    (ax ay : Nat) (ct : ContentType) (bx0 by0 bx1 by1 : Int)
    (hcache : details.gpu_cache = GpuCacheStatus.InAtlas ax ay ct) :
    (emit_glyph x y line_y scale_factor color depth cm details
        bx0 by0 bx1 by1 = none ↔
      (x + details.left > bx1 ∨
       x + details.left + (details.width : Int) < bx0 ∨
       roundHalfAway (line_y * scale_factor) + y - details.top > by1 ∨
       roundHalfAway (line_y * scale_factor) + y - details.top +
         (details.height : Int) < by0)) := by
  have hiff : (emit_glyph x y line_y scale_factor color depth cm details
      bx0 by0 bx1 by1 = none) ↔
      (clip_glyph (x + details.left)
        (roundHalfAway (line_y * scale_factor) + y - details.top)
        details.width details.height ax ay bx0 by0 bx1 by1 = none) := by
    simp only [emit_glyph, hcache]
    rcases hc : clip_glyph (x + details.left)
        (roundHalfAway (line_y * scale_factor) + y - details.top)
        details.width details.height ax ay bx0 by0 bx1 by1 with
      _ | ⟨cx, cy, cw, ch, ux, uy⟩ <;> simp [hc]
  rw [hiff, clip_glyph_none_iff]

/-- Witness for C9's amended theorem: a glyph strictly beyond the right
bound is rejected. -/
theorem c9_amended_reject_iff_witness :
    emit_glyph 200 0 0 1 0 0 ColorMode.Web sampleDetails 0 0 100 100 =
      none := by
  refine (c9_amended_reject_iff 200 0 0 1 0 0 ColorMode.Web sampleDetails
    5 7 ContentType.Mask 0 0 100 100 rfl).mpr ?_
  norm_num [sampleDetails]

/-! ### C10: clipped dimensions do not wrap through the u16 cast -/

/-- C10: for a text area whose viewport-clamped bounds are ordered
(min ≤ max on both axes) and a cached glyph of genuine `u16` extent,
every emitted vertex's `dim` is the `u16` image of non-negative clipped
`i32` extents bounded by the glyph's own extent — the cast never wraps
to a large value. -/
theorem c10_dim_nonneg_no_wrap (x y : Int) (line_y scale_factor : ℚ)
    (color : Nat) (depth : ℚ) (cm : ColorMode) (details : GlyphDetails)
    (bounds : TextBounds) (viewport_w viewport_h : Nat) (v : GlyphToRender)
    (hbx : max bounds.left 0 ≤ min bounds.right (viewport_w : Int))
    (hby : max bounds.top 0 ≤ min bounds.bottom (viewport_h : Int))
    (hw : details.width < 65536) (hh : details.height < 65536)
    (hemit : emit_glyph x y line_y scale_factor color depth cm details
      (max bounds.left 0) (max bounds.top 0)
      (min bounds.right (viewport_w : Int))
      (min bounds.bottom (viewport_h : Int)) = some v) :
    ∃ cw ch : Int, 0 ≤ cw ∧ 0 ≤ ch ∧
      cw ≤ details.width ∧ ch ≤ details.height ∧
      v.dim = (cw.toNat, ch.toNat) := by
  rcases hgpu : details.gpu_cache with ⟨ax, ay, ct⟩ | _
  · simp only [emit_glyph, hgpu] at hemit
    rcases hc : clip_glyph (x + details.left)
        (roundHalfAway (line_y * scale_factor) + y - details.top)
        details.width details.height ax ay
        (max bounds.left 0) (max bounds.top 0)
        (min bounds.right (viewport_w : Int))
        (min bounds.bottom (viewport_h : Int)) with
      _ | ⟨cx, cy, cw, ch, ux, uy⟩
    · rw [hc] at hemit
      cases hemit
    · rw [hc] at hemit
      simp only [Option.some.injEq] at hemit
      obtain ⟨-, -, hcw, hch⟩ := clip_glyph_some_shape _ _ _ _ _ _ _ _ _ _
        _ _ _ _ _ _ hc
      obtain ⟨hcw1, hcw2⟩ := hcw hbx
      obtain ⟨hch1, hch2⟩ := hch hby
      refine ⟨cw, ch, hcw1, hch1, hcw2, hch2, ?_⟩
      rw [← hemit]
      simp only [intToU16, Prod.mk.injEq]
      constructor <;> omega
  · simp only [emit_glyph, hgpu] at hemit
    cases hemit

/-- Witness for C10: a 10 by 10 glyph at x = 45 against bounds clamped to
a 50 by 50 viewport is right-clipped to width 5; both clipped extents are
non-negative and bounded by the glyph extent. -/
theorem c10_dim_nonneg_no_wrap_witness :
    ∃ cw ch : Int, 0 ≤ cw ∧ 0 ≤ ch ∧
      cw ≤ sampleDetails.width ∧ ch ≤ sampleDetails.height ∧
      (({ pos := (45, 5), dim := (5, 10), uv := (5, 7), color := 0,
          content_type_with_srgb := (1, 0), depth := 0 } :
        GlyphToRender).dim = (cw.toNat, ch.toNat)) := by
  refine c10_dim_nonneg_no_wrap 45 5 0 1 0 0 ColorMode.Web sampleDetails
    sampleBounds 50 50 _ (by norm_num [sampleBounds])
    (by norm_num [sampleBounds]) (by norm_num [sampleDetails])
    (by norm_num [sampleDetails]) ?_
  norm_num [emit_glyph, clip_glyph, sampleDetails, sampleBounds,
    roundHalfAway, intToU16, u16add, ContentType.code,
    TextColorConversion.code, srgb_conversion]
  all_goals decide

/-! ### C8: emitted screen position -/

/-- C8 counterexample: a glyph requested at x = −5 with zero bearings
against bounds [0, 100) is emitted at position 0, not at
`requested x + left bearing = −5`: the claim, as stated, ignores the
min-side clamping of the emitted position. -/
theorem c8_counterexample :
    emit_glyph (-5) 0 0 1 0 0 ColorMode.Web sampleDetails 0 0 100 100 =
      some { pos := (0, 0), dim := (5, 10), uv := (10, 7), color := 0,
             content_type_with_srgb := (1, 0), depth := 0 } ∧
    (-5 : Int) + sampleDetails.left ≠ 0 := by
  constructor
  · norm_num [emit_glyph, clip_glyph, sampleDetails, roundHalfAway,
      intToU16, u16add, ContentType.code, TextColorConversion.code,
      srgb_conversion]
    all_goals decide
  · norm_num [sampleDetails]

/-- C8 amended: the emitted integer screen position is the requested
position plus the cached bearing offsets (with the vertical part
incorporating `round(line_y * scale)` minus the top bearing), *clamped
from below* at the clamped bounds' min edges; it equals
`requested + bearing` exactly when no min-side clip occurs. -/
theorem c8_amended_pos_clamped (x y : Int) (line_y scale_factor : ℚ)
    (color : Nat) (depth : ℚ) (cm : ColorMode) (details : GlyphDetails)
    (bx0 by0 bx1 by1 : Int) (v : GlyphToRender)
    (hemit : emit_glyph x y line_y scale_factor color depth cm details
      bx0 by0 bx1 by1 = some v) :
    v.pos = (max (x + details.left) bx0,
             max (roundHalfAway (line_y * scale_factor) + y - details.top)
               by0) := by
  rcases hgpu : details.gpu_cache with ⟨ax, ay, ct⟩ | _
  · simp only [emit_glyph, hgpu] at hemit
    rcases hc : clip_glyph (x + details.left)
        (roundHalfAway (line_y * scale_factor) + y - details.top)
        details.width details.height ax ay bx0 by0 bx1 by1 with
      _ | ⟨cx, cy, cw, ch, ux, uy⟩
    · rw [hc] at hemit
      cases hemit
    · rw [hc] at hemit
      simp only [Option.some.injEq] at hemit
      obtain ⟨hcx, hcy, -, -⟩ := clip_glyph_some_shape _ _ _ _ _ _ _ _ _ _
        _ _ _ _ _ _ hc
      rw [← hemit]
      simp only [Prod.mk.injEq]
      exact ⟨hcx, hcy⟩
  · simp only [emit_glyph, hgpu] at hemit
    cases hemit

/-- Witness for C8's amended theorem at the counterexample input: the
emitted position is the clamp of `requested + bearing`. -/
theorem c8_amended_pos_clamped_witness :
    (({ pos := (0, 0), dim := (5, 10), uv := (10, 7), color := 0,
        content_type_with_srgb := (1, 0), depth := 0 } :
      GlyphToRender).pos =
      (max ((-5) + sampleDetails.left) 0,
       max (roundHalfAway (0 * 1) + 0 - sampleDetails.top) 0)) := by
  refine c8_amended_pos_clamped (-5) 0 0 1 0 0 ColorMode.Web sampleDetails
    0 0 100 100 _ ?_
  norm_num [emit_glyph, clip_glyph, sampleDetails, roundHalfAway,
    intToU16, u16add, ContentType.code, TextColorConversion.code,
    srgb_conversion]
  all_goals decide

/-! ### C6: the linear-conversion flag -/

/-- C6 counterexample: in `Accurate` color mode, a *mask* glyph (content
type code 1) is emitted with the linear-conversion flag set (code 1),
although the claim states that mask glyphs never get the flag: the flag
depends only on the color mode. -/
theorem c6_counterexample :
    (emit_glyph 10 10 0 1 0 0 ColorMode.Accurate sampleDetails
        0 0 100 100).map (fun v => v.content_type_with_srgb) =
      some (ContentType.Mask.code,
        TextColorConversion.ConvertToLinear.code) := by
  norm_num [emit_glyph, clip_glyph, sampleDetails, roundHalfAway, intToU16,
    u16add, ContentType.code, TextColorConversion.code, srgb_conversion]

/-- C6 amended: for every emitted vertex, the linear-conversion flag is
set if and only if the atlas color mode is `Accurate`, regardless of the
glyph's content type (mask glyphs in accurate mode get it too). -/
theorem c6_amended_flag_mode_only (x y : Int) (line_y scale_factor : ℚ)
    (color : Nat) (depth : ℚ) (cm : ColorMode) (details : GlyphDetails)
    (bx0 by0 bx1 by1 : Int) (v : GlyphToRender)
    (hemit : emit_glyph x y line_y scale_factor color depth cm details
      bx0 by0 bx1 by1 = some v) :
    v.content_type_with_srgb.2 =
      (if cm = ColorMode.Accurate then 1 else 0) := by
  rcases hgpu : details.gpu_cache with ⟨ax, ay, ct⟩ | _
  · simp only [emit_glyph, hgpu] at hemit
    rcases hc : clip_glyph (x + details.left)
        (roundHalfAway (line_y * scale_factor) + y - details.top)
        details.width details.height ax ay bx0 by0 bx1 by1 with
      _ | ⟨cx, cy, cw, ch, ux, uy⟩
    · rw [hc] at hemit
      cases hemit
    · rw [hc] at hemit
      simp only [Option.some.injEq] at hemit
      rw [← hemit]
      cases cm <;> simp [srgb_conversion, TextColorConversion.code]
  · simp only [emit_glyph, hgpu] at hemit
    cases hemit

/-- Witness for C6's amended theorem at the counterexample input. -/
theorem c6_amended_flag_mode_only_witness :
    (({ pos := (10, 10), dim := (10, 10), uv := (5, 7), color := 0,
        content_type_with_srgb := (1, 1), depth := 0 } :
      GlyphToRender).content_type_with_srgb.2 =
      (if ColorMode.Accurate = ColorMode.Accurate then 1 else 0)) := by
  refine c6_amended_flag_mode_only 10 10 0 1 0 0 ColorMode.Accurate
    sampleDetails 0 0 100 100 _ ?_
  norm_num [emit_glyph, clip_glyph, sampleDetails, roundHalfAway,
    intToU16, u16add, ContentType.code, TextColorConversion.code,
    srgb_conversion]
  all_goals decide

/-! ### C3: a None rasterization result is not cached -/

/-- C3 counterexample: for an uncached key whose rasterization callback
returns `None`, `prepare_glyph` returns `Ok(None)` immediately — it
invokes rasterization (`rasterized = true`) but inserts *no*
`SkipRasterization` entry (the atlas is returned unchanged, and the key
is still absent from both stores), so a second preparation of the same
key invokes rasterization again rather than hitting the cache. -/
theorem c3_counterexample :
    prepare_glyph 0 0 0 0 0 sampleKey emptyAtlas 1 0 0 100 100 none
        (fun _ => 0) =
      Except.ok { vertex := none, atlas := emptyAtlas, rasterized := true,
                  uploaded := false } ∧
    cacheGet emptyAtlas.mask_atlas.glyph_cache sampleKey = none ∧
    cacheGet emptyAtlas.color_atlas.glyph_cache sampleKey = none := by
  refine ⟨rfl, rfl, rfl⟩

/-- C3 amended: when the rasterization callback returns `None` for a key
that is cached in neither store, *nothing* is inserted into the cache:
the call returns `Ok(None)` with the atlas unchanged and the callback
invoked, so any later preparation of the same key invokes rasterization
again.  (Only zero-sized `Some` bitmaps are cached as
`SkipRasterization`.) -/
theorem c3_amended_none_not_cached (x y : Int) (line_y : ℚ) (color : Nat)
    (metadata : Nat) (cache_key : GlyphonCacheKey) (atlas : TextAtlas)
    (scale_factor : ℚ) (bx0 by0 bx1 by1 : Int) (metadata_to_depth : Nat → ℚ)
    (h1 : cacheGet atlas.mask_atlas.glyph_cache cache_key = none)
    (h2 : cacheGet atlas.color_atlas.glyph_cache cache_key = none) :
    prepare_glyph x y line_y color metadata cache_key atlas scale_factor
        bx0 by0 bx1 by1 none metadata_to_depth =
      Except.ok { vertex := none, atlas := atlas, rasterized := true,
                  uploaded := false } := by
  simp only [prepare_glyph, h1, h2]

/-- Witness for C3's amended theorem at the concrete counterexample
input. -/
theorem c3_amended_none_not_cached_witness :
    prepare_glyph 3 4 0 5 6 sampleKey emptyAtlas 1 0 0 100 100 none
        (fun _ => 0) =
      Except.ok { vertex := none, atlas := emptyAtlas, rasterized := true,
                  uploaded := false } :=
  c3_amended_none_not_cached 3 4 0 5 6 sampleKey emptyAtlas 1 0 0 100 100
    (fun _ => 0) rfl rfl

/-! ### C7: cache idempotence of repeated preparation -/

/-- C7: preparing an uncached key (with a bitmap available) and then
preparing the same key again returns the identical vertex (hence the same
atlas coordinates and bearings) on both calls; the second call hits the
mask-then-color store lookup, leaves the atlas untouched, and performs
neither rasterization nor upload.  After the first call the key is
resident in exactly the store matching its content type. -/
theorem c7_second_prepare_hits_cache (x y : Int) (line_y : ℚ) (color : Nat)
    (metadata : Nat) (cache_key : GlyphonCacheKey) (atlas : TextAtlas)
    (scale_factor : ℚ) (bx0 by0 bx1 by1 : Int)
    (image : GetGlyphImageResult) (image2 : Option GetGlyphImageResult)
    (metadata_to_depth : Nat → ℚ) (out : PrepareOutcome)
    (h1 : cacheGet atlas.mask_atlas.glyph_cache cache_key = none)
    (h2 : cacheGet atlas.color_atlas.glyph_cache cache_key = none)
    (hcall : prepare_glyph x y line_y color metadata cache_key atlas
      scale_factor bx0 by0 bx1 by1 (some image) metadata_to_depth =
        Except.ok out) :
    out.rasterized = true ∧
    (cacheGet out.atlas.mask_atlas.glyph_cache cache_key ≠ none ∨
     cacheGet out.atlas.color_atlas.glyph_cache cache_key ≠ none) ∧
    prepare_glyph x y line_y color metadata cache_key out.atlas
        scale_factor bx0 by0 bx1 by1 image2 metadata_to_depth =
      Except.ok { vertex := out.vertex, atlas := out.atlas,
                  rasterized := false, uploaded := false } := by
  simp only [prepare_glyph, h1, h2] at hcall
  by_cases hpos : 0 < image.width ∧ 0 < image.height
  · rw [if_pos hpos] at hcall
    rcases hal : allocate_loop image.width image.height
        (innerFor atlas image.content_type).packer with e | ⟨⟨ax, ay⟩, aid, p1⟩
    · rw [hal] at hcall
      cases hcall
    · rw [hal] at hcall
      simp only [cacheEntryOrInsert] at hcall
      rcases hct : image.content_type with _ | _
      · -- Color: the entry is inserted into the color store.
        rw [hct] at hcall
        simp only [innerFor, setInner, h2] at hcall
        simp only [Except.ok.injEq] at hcall
        rw [← hcall]
        refine ⟨rfl, Or.inr (by simp [cacheGet]), ?_⟩
        simp [prepare_glyph, cacheGet, h1]
      · -- Mask: the entry is inserted into the mask store.
        rw [hct] at hcall
        simp only [innerFor, setInner, h1] at hcall
        simp only [Except.ok.injEq] at hcall
        rw [← hcall]
        refine ⟨rfl, Or.inl (by simp [cacheGet]), ?_⟩
        simp [prepare_glyph, cacheGet]
  · rw [if_neg hpos] at hcall
    simp only [cacheEntryOrInsert, h2] at hcall
    simp only [Except.ok.injEq] at hcall
    rw [← hcall]
    refine ⟨rfl, Or.inr (by simp [cacheGet]), ?_⟩
    simp [prepare_glyph, cacheGet, h1]

/-- Witness for C7: on the concrete empty atlas, the first preparation of
`sampleKey` rasterizes and uploads a 4 by 4 mask bitmap; the second
preparation returns the identical vertex from the cache without
rasterizing or uploading, leaving the atlas unchanged. -/
theorem c7_second_prepare_hits_cache_witness :
    (cacheGet uploadedAtlas.mask_atlas.glyph_cache sampleKey ≠ none ∨
     cacheGet uploadedAtlas.color_atlas.glyph_cache sampleKey ≠ none) ∧
    prepare_glyph 0 0 0 2 0 sampleKey uploadedAtlas 1 0 0 100 100 none
        (fun _ => 0) =
      Except.ok { vertex := some uploadedVertex, atlas := uploadedAtlas,
                  rasterized := false, uploaded := false } := by
  have h := c7_second_prepare_hits_cache 0 0 0 2 0 sampleKey emptyAtlas 1
    0 0 100 100 sampleImage none (fun _ => 0)
    { vertex := some uploadedVertex, atlas := uploadedAtlas,
      rasterized := true, uploaded := true }
    rfl rfl ?_
  · exact ⟨h.2.1, h.2.2⟩
  · simp [prepare_glyph, cacheGet, cacheEntryOrInsert, innerFor, setInner,
      allocate_loop, try_allocate, grow_packer, emptyAtlas, samplePacker,
      sampleImage, uploadedAtlas, uploadedDetails, uploadedVertex,
      emit_glyph, clip_glyph, roundHalfAway, intToU16, u16add,
      ContentType.code, TextColorConversion.code, srgb_conversion]
    norm_num
    all_goals decide

/-! ### C4: atlas exhaustion aborts the whole preparation call -/

/-- C4: the allocation loop retries after a successful growth and fails
with `AtlasFull` exactly when growth cannot increase capacity; that error
propagates out of `prepare_glyph`, aborts the per-glyph loop at the
failing glyph (no later glyph is processed, no partial vertex list is
produced), and the whole preparation call returns an error — which can
only be `AtlasFull` — or a renderable area for *every* input area. -/
theorem c4_atlas_full_aborts_preparation :
    (∀ w h p, try_allocate w h p = none → grow_packer p = none →
        allocate_loop w h p = Except.error PrepareError.AtlasFull) ∧
    (∀ w h p p1, try_allocate w h p = none → grow_packer p = some p1 →
        allocate_loop w h p = allocate_loop w h p1) ∧
    (∀ x y line_y color metadata cache_key atlas scale_factor
        bx0 by0 bx1 by1 image metadata_to_depth,
        cacheGet atlas.mask_atlas.glyph_cache cache_key = none →
        cacheGet atlas.color_atlas.glyph_cache cache_key = none →
        0 < image.width → 0 < image.height →
        allocate_loop image.width image.height
            (innerFor atlas image.content_type).packer =
          Except.error PrepareError.AtlasFull →
        prepare_glyph x y line_y color metadata cache_key atlas scale_factor
            bx0 by0 bx1 by1 (some image) metadata_to_depth =
          Except.error PrepareError.AtlasFull) ∧
    (∀ atlas scale_factor line_y bx0 by0 bx1 by1 metadata_to_depth
        gs1 g gs2 vs atlas1 e,
        prepare_glyph_list atlas scale_factor line_y bx0 by0 bx1 by1
            metadata_to_depth gs1 = Except.ok (vs, atlas1) →
        prepare_glyph g.x g.y line_y g.color g.metadata g.cache_key atlas1
            scale_factor bx0 by0 bx1 by1 g.image metadata_to_depth =
          Except.error e →
        prepare_glyph_list atlas scale_factor line_y bx0 by0 bx1 by1
            metadata_to_depth (gs1 ++ g :: gs2) = Except.error e) ∧
    (∀ atlas viewport_w viewport_h metadata_to_depth areas res,
        prepare_text_areas_with_depth_and_custom atlas viewport_w
            viewport_h metadata_to_depth areas = Except.ok res →
        res.1.length = areas.length) ∧
    (∀ atlas viewport_w viewport_h metadata_to_depth areas e,
        prepare_text_areas_with_depth_and_custom atlas viewport_w
            viewport_h metadata_to_depth areas = Except.error e →
        e = PrepareError.AtlasFull) := by
  refine ⟨?_, ?_, ?_, ?_, ?_, ?_⟩
  · intro w h p h1 h2
    rw [allocate_loop.eq_def, h1, h2]
  · intro w h p p1 h1 h2
    conv_lhs => rw [allocate_loop.eq_def]
    rw [h1, h2]
  · intro x y line_y color metadata cache_key atlas scale_factor
      bx0 by0 bx1 by1 image metadata_to_depth h1 h2 hw hh hloop
    simp only [prepare_glyph, h1, h2]
    rw [if_pos ⟨hw, hh⟩, hloop]
  · intro atlas scale_factor line_y bx0 by0 bx1 by1 metadata_to_depth
      gs1 g gs2 vs atlas1 e hok herr
    induction gs1 generalizing atlas vs
    case nil =>
      simp only [prepare_glyph_list] at hok
      simp only [Except.ok.injEq, Prod.mk.injEq] at hok
      obtain ⟨-, hatlas⟩ := hok
      simp only [List.nil_append, prepare_glyph_list, hatlas, herr]
    case cons a tl ih =>
      simp only [prepare_glyph_list] at hok
      rcases ha : prepare_glyph a.x a.y line_y a.color a.metadata
          a.cache_key atlas scale_factor bx0 by0 bx1 by1 a.image
          metadata_to_depth with e1 | outcome
      · simp only [ha] at hok
        cases hok
      · simp only [ha] at hok
        rcases htl : prepare_glyph_list outcome.atlas scale_factor line_y
            bx0 by0 bx1 by1 metadata_to_depth tl with e2 | ⟨vs2, atlas2⟩
        · simp only [htl] at hok
          cases hok
        · simp only [htl] at hok
          simp only [Except.ok.injEq, Prod.mk.injEq] at hok
          obtain ⟨-, hatlas⟩ := hok
          simp only [List.cons_append, prepare_glyph_list, ha,
            List.append_eq]
          rw [ih outcome.atlas vs2 (by rw [htl, hatlas])]
  · intro atlas viewport_w viewport_h metadata_to_depth areas res hok
    induction areas generalizing atlas res
    case nil =>
      simp only [prepare_text_areas_with_depth_and_custom] at hok
      simp only [Except.ok.injEq] at hok
      rw [← hok]
      rfl
    case cons a tl ih =>
      simp only [prepare_text_areas_with_depth_and_custom] at hok
      rcases hc : prepare_glyph_list atlas a.scale 0 (max a.bounds.left 0)
          (max a.bounds.top 0) (min a.bounds.right (viewport_w : Int))
          (min a.bounds.bottom (viewport_h : Int)) metadata_to_depth
          a.custom_glyphs with e1 | ⟨cvs, atlas1⟩
      · simp only [hc] at hok
        cases hok
      · simp only [hc] at hok
        rcases hr : prepare_runs atlas1 a (max a.bounds.left 0)
            (max a.bounds.top 0) (min a.bounds.right (viewport_w : Int))
            (min a.bounds.bottom (viewport_h : Int)) metadata_to_depth
            a.runs with e2 | ⟨lgs, atlas2⟩
        · simp only [hr] at hok
          cases hok
        · simp only [hr] at hok
          rcases ht : prepare_text_areas_with_depth_and_custom atlas2
              viewport_w viewport_h metadata_to_depth tl with
            e3 | ⟨rest_areas, atlas3⟩
          · simp only [ht] at hok
            cases hok
          · simp only [ht] at hok
            simp only [Except.ok.injEq] at hok
            rw [← hok]
            simp only [List.length_cons]
            rw [ih atlas2 (rest_areas, atlas3) ht]
  · intro atlas viewport_w viewport_h metadata_to_depth areas e h
    cases e
    rfl

/-- Witness for C4: on the concrete exhausted atlas (packer full and at
its growth ceiling), preparing an uncached 4 by 4 glyph returns the
`AtlasFull` error. -/
theorem c4_atlas_full_aborts_preparation_witness :
    prepare_glyph 0 0 0 0 0 sampleKey fullAtlas 1 0 0 100 100
        (some sampleImage) (fun _ => 0) =
      Except.error PrepareError.AtlasFull := by
  refine c4_atlas_full_aborts_preparation.2.2.1 0 0 0 0 0 sampleKey
    fullAtlas 1 0 0 100 100 sampleImage (fun _ => 0) rfl rfl
    (by decide) (by decide) ?_
  exact c4_atlas_full_aborts_preparation.1 sampleImage.width
    sampleImage.height (innerFor fullAtlas sampleImage.content_type).packer
    (by decide) (by decide)

/-! ### C5: vertex buffer capacity policy -/

/-- `next_power_of_two` is a power of two and bounds its input. -/
theorem next_power_of_two_spec (n : Nat) :
    (∃ k, next_power_of_two n = 2 ^ k) ∧ n ≤ next_power_of_two n := by
  unfold next_power_of_two
  split_ifs with h
  · exact ⟨⟨0, by norm_num⟩, by omega⟩
  · refine ⟨⟨Nat.log 2 (n - 1) + 1, rfl⟩, ?_⟩
    have hlt := @Nat.lt_pow_succ_log_self 2 (by norm_num) (n - 1)
    omega

/-- `next_copy_buffer_size` returns a power of two that is at least the
requested size and at least the copy alignment. -/
theorem next_copy_buffer_size_spec (s : Nat) :
    (∃ k, next_copy_buffer_size s = 2 ^ k) ∧ s ≤ next_copy_buffer_size s ∧
      COPY_BUFFER_ALIGNMENT ≤ next_copy_buffer_size s := by
  obtain ⟨⟨k, hk⟩, hle⟩ := next_power_of_two_spec s
  refine ⟨?_, ?_, ?_⟩
  · simp only [next_copy_buffer_size, COPY_BUFFER_ALIGNMENT]
    rw [hk]
    rcases k with _ | k1
    · exact ⟨2, by norm_num⟩
    · rcases k1 with _ | k2
      · exact ⟨2, by norm_num⟩
      · refine ⟨k2 + 2, ?_⟩
        have h4 : (2 : Nat) ^ (k2 + 2) = 4 * 2 ^ k2 := by ring
        have h5 : (2 : Nat) ^ (k2 + 1 + 1) = 4 * 2 ^ k2 := by ring
        have h1 : (1 : Nat) ≤ 2 ^ k2 := Nat.one_le_two_pow
        omega
  · simp only [next_copy_buffer_size, COPY_BUFFER_ALIGNMENT]
    omega
  · simp only [next_copy_buffer_size, COPY_BUFFER_ALIGNMENT]
    omega

/-- The initial vertex buffer capacity is 4096 bytes
(`next_copy_buffer_size 4096 = 4096`). -/
theorem init_vertex_buffer_size :
    TextRenderer2.init.vertex_buffer_size = 4096 := by
  show next_copy_buffer_size 4096 = 4096
  have hlog : Nat.log 2 (4096 - 1) = 11 :=
    @Nat.log_eq_of_pow_le_of_lt_pow 2 11 (4096 - 1) (by norm_num)
      (by norm_num)
  have hnp : next_power_of_two 4096 = 4096 := by
    rw [next_power_of_two, if_neg (by norm_num), hlog]
    norm_num
  show max ((next_power_of_two 4096 + (COPY_BUFFER_ALIGNMENT - 1)) /
      COPY_BUFFER_ALIGNMENT * COPY_BUFFER_ALIGNMENT)
    COPY_BUFFER_ALIGNMENT = 4096
  rw [hnp]
  norm_num [COPY_BUFFER_ALIGNMENT]

/-- One `prepare_renderable_text_areas` call preserves the capacity
invariants: the capacity stays a power of two (if it was), stays at least
the alignment (if it was), covers the new byte length, never decreases,
and is left untouched — same buffer generation, in-place write — when the
new stream fits. -/
theorem prepare_renderable_buffer_step (r : TextRenderer2)
    (areas : List RenderableTextArea) :
    ((∃ k, r.vertex_buffer_size = 2 ^ k) →
      ∃ k, (r.prepare_renderable_text_areas areas).vertex_buffer_size =
        2 ^ k) ∧
    (COPY_BUFFER_ALIGNMENT ≤ r.vertex_buffer_size →
      COPY_BUFFER_ALIGNMENT ≤
        (r.prepare_renderable_text_areas areas).vertex_buffer_size) ∧
    (r.prepare_renderable_text_areas areas).glyph_vertices_len *
        GLYPH_TO_RENDER_SIZE ≤
      (r.prepare_renderable_text_areas areas).vertex_buffer_size ∧
    r.vertex_buffer_size ≤
      (r.prepare_renderable_text_areas areas).vertex_buffer_size ∧
    ((assemble_glyph_vertices areas).length * GLYPH_TO_RENDER_SIZE ≤
        r.vertex_buffer_size →
      r.prepare_renderable_text_areas areas =
        { vertex_buffer_size := r.vertex_buffer_size
          glyph_vertices_len := (assemble_glyph_vertices areas).length
          generation := r.generation }) := by
  obtain ⟨⟨k0, hpow⟩, hge, halign⟩ := next_copy_buffer_size_spec
    ((assemble_glyph_vertices areas).length * GLYPH_TO_RENDER_SIZE)
  simp only [TextRenderer2.prepare_renderable_text_areas]
  split_ifs with hfit
  · dsimp only
    exact ⟨fun h => h, fun h => h, hfit, Nat.le_refl _, fun _ => rfl⟩
  · dsimp only
    exact ⟨fun _ => ⟨k0, hpow⟩, fun _ => by omega, hge, by omega,
      fun hcontra => absurd hcontra hfit⟩

/-- C5: across every sequence of `prepare_renderable_text_areas` calls
from the initial state, the vertex buffer capacity is a power of two, at
least the current vertex byte length
(`glyph_vertices_len * size_of::<GlyphToRender>()`), and at least the
platform copy alignment; one further call never decreases the capacity,
and when the new stream fits in the current capacity the write happens in
place: capacity and buffer generation are unchanged and only the vertex
count is updated. -/
theorem c5_buffer_capacity_invariant (calls : List (List RenderableTextArea))
    (areas : List RenderableTextArea) :
    (∃ k, (TextRenderer2.init.run_prepares calls).vertex_buffer_size =
      2 ^ k) ∧
    (TextRenderer2.init.run_prepares calls).glyph_vertices_len *
        GLYPH_TO_RENDER_SIZE ≤
      (TextRenderer2.init.run_prepares calls).vertex_buffer_size ∧
    COPY_BUFFER_ALIGNMENT ≤
      (TextRenderer2.init.run_prepares calls).vertex_buffer_size ∧
    (TextRenderer2.init.run_prepares calls).vertex_buffer_size ≤
      ((TextRenderer2.init.run_prepares
        calls).prepare_renderable_text_areas areas).vertex_buffer_size ∧
    ((assemble_glyph_vertices areas).length * GLYPH_TO_RENDER_SIZE ≤
        (TextRenderer2.init.run_prepares calls).vertex_buffer_size →
      (TextRenderer2.init.run_prepares
          calls).prepare_renderable_text_areas areas =
        { vertex_buffer_size :=
            (TextRenderer2.init.run_prepares calls).vertex_buffer_size
          glyph_vertices_len := (assemble_glyph_vertices areas).length
          generation :=
            (TextRenderer2.init.run_prepares calls).generation }) := by
  have hmain : ∀ (cs : List (List RenderableTextArea)) (r : TextRenderer2),
      (∃ k, r.vertex_buffer_size = 2 ^ k) →
      r.glyph_vertices_len * GLYPH_TO_RENDER_SIZE ≤ r.vertex_buffer_size →
      COPY_BUFFER_ALIGNMENT ≤ r.vertex_buffer_size →
      (∃ k, (r.run_prepares cs).vertex_buffer_size = 2 ^ k) ∧
        (r.run_prepares cs).glyph_vertices_len * GLYPH_TO_RENDER_SIZE ≤
          (r.run_prepares cs).vertex_buffer_size ∧
        COPY_BUFFER_ALIGNMENT ≤ (r.run_prepares cs).vertex_buffer_size := by
    intro cs
    induction cs
    case nil => exact fun r h1 h2 h3 => ⟨h1, h2, h3⟩
    case cons c tl ih =>
      intro r h1 h2 h3
      obtain ⟨s1, s2, s3, -, -⟩ := prepare_renderable_buffer_step r c
      exact ih (r.prepare_renderable_text_areas c) (s1 h1) s3 (s2 h3)
  have hinit1 : ∃ k, TextRenderer2.init.vertex_buffer_size = 2 ^ k := by
    rw [init_vertex_buffer_size]
    exact ⟨12, by norm_num⟩
  have hinit2 : TextRenderer2.init.glyph_vertices_len *
      GLYPH_TO_RENDER_SIZE ≤ TextRenderer2.init.vertex_buffer_size := by
    rw [init_vertex_buffer_size]
    show 0 * GLYPH_TO_RENDER_SIZE ≤ 4096
    omega
  have hinit3 : COPY_BUFFER_ALIGNMENT ≤
      TextRenderer2.init.vertex_buffer_size := by
    rw [init_vertex_buffer_size]
    norm_num [COPY_BUFFER_ALIGNMENT]
  obtain ⟨g1, g2, g3⟩ := hmain calls TextRenderer2.init hinit1 hinit2 hinit3
  obtain ⟨-, -, -, s4, s5⟩ := prepare_renderable_buffer_step
    (TextRenderer2.init.run_prepares calls) areas
  exact ⟨g1, g2, g3, s4, s5⟩

/-- Witness for C5 at the empty call sequence: the capacity is a power
of two and an empty follow-up write is in place. -/
theorem c5_buffer_capacity_invariant_witness :
    ∃ k, (TextRenderer2.init.run_prepares []).vertex_buffer_size = 2 ^ k :=
  (c5_buffer_capacity_invariant [] []).1

end Glyphon
